import Mathlib

/-!
Shallow embedding of the `lvm_pvs` Ansible module (`src/system/lvm_pvs.py`).

The module shells out to external commands (`pvs`, `pvcreate`, `pvremove`,
`dmsetup`) and to the filesystem (`os.path.realpath`, `os.path.exists`).
We model that outside world as a record of pure functions (`Env`), and the
module run as a pure function from `Env` and parameters to a pair of
  * the trace of external commands invoked, in order, and
  * the terminal outcome (`exit_json`, `fail_json`, or an uncaught Python
    exception).

String helpers (`pyStrip`, `pySplitlines`, ...) mirror the Python string
methods the source uses, implemented structurally over `List Char` so that
concrete runs reduce inside the kernel.
-/

set_option autoImplicit false

namespace LvmPvs

/-- Result of `module.run_command`: exit code, stdout, stderr. -/
structure CmdResult where
  rc : Int
  out : String
  err : String

/-- One external command invocation made by the module. -/
inductive Cmd where
  /-- The read-only listing `pvs --noheadings -o pv_name,vg_name,pv_size,pv_free ...` (line 134). -/
  | pvsList : Cmd
  /-- The read-only lookup `dmsetup info -C --noheadings -o name <dev>` (line 78). -/
  | dmsetup : String → Cmd
  /-- The mutating `pvcreate <options> <dev>` (line 146). -/
  | pvcreate : List String → String → Cmd
  /-- The mutating graceful `pvremove <dev>` (line 158). -/
  | pvremove : String → Cmd
  /-- The mutating forced `pvremove -ff -y <dev>` (line 167). -/
  | pvremoveForced : String → Cmd
deriving DecidableEq

/-- Whether a command mutates system state (`pvcreate` / `pvremove` variants). -/
def Cmd.isMutating : Cmd → Bool
  | Cmd.pvsList => false
  | Cmd.dmsetup _ => false
  | Cmd.pvcreate _ _ => true
  | Cmd.pvremove _ => true
  | Cmd.pvremoveForced _ => true

/-- Terminal outcome of a run of `main`. -/
inductive Outcome where
  /-- A `module.exit_json(changed=...)` exit. -/
  | exitJson : Bool → Outcome
  /-- A `module.fail_json(msg=...)` exit without command data. -/
  | failMsg : String → Outcome
  /-- A `module.fail_json(msg=..., rc=..., err=...)` exit reporting a failed command. -/
  | failCmd : String → Int → String → Outcome
  /-- An uncaught Python exception (the run crashes with a traceback). -/
  | pyError : String → Outcome
deriving DecidableEq

/-- The attributes the module records per physical volume (lines 92-96).
All three are kept as the raw strings cut from the `pvs` output line. -/
structure VolumeRecord where
  vg_name : String
  pv_size : String
  pv_free : String
deriving DecidableEq

/-- The parsed `pvs` output: association list from device path to record,
in output-line order.  Later lines override earlier ones on lookup, matching
Python dict assignment in `parse_pvs`. -/
abbrev Inventory := List (String × VolumeRecord)

/-- Dict-style lookup: the value of the LAST binding of `key`, as in the
Python dict built by repeated assignment. -/
def invFind : Inventory → String → Option VolumeRecord
  | [], _ => none
  | (k, v) :: rest, key =>
    match invFind rest key with
    | some r => some r
    | none => if k = key then some v else none

/-- The outside world: filesystem queries and results of the external
commands the module may run.  Commands are modelled as pure functions of
their device argument, i.e. a deterministic snapshot of the host. -/
structure Env where
  realpath : String → String
  path_exists : String → Bool
  pvs_run : CmdResult
  dmsetup_run : String → CmdResult
  pvcreate_run : String → CmdResult
  pvremove_run : String → CmdResult
  pvremove_forced_run : String → CmdResult

/-- Module parameters after `AnsibleModule` argument parsing (lines 101-112).
`pvs = []` models both an omitted and an empty `pvs` argument (both are falsy
at line 115). -/
structure Params where
  pvs : List String
  pv_options : String
  state : String
  force : Bool
  check_mode : Bool

/-- Split a character list at every occurrence of `c` (Python
`str.split(sep)` with an explicit separator: empty pieces are kept, and the
result is never empty). -/
def splitOnChar (c : Char) : List Char → List (List Char)
  | [] => [[]]
  | ch :: rest =>
    let r := splitOnChar c rest
    if ch = c then [] :: r
    else
      match r with
      | g :: gs => (ch :: g) :: gs
      | [] => [[ch]]

/-- Python `str.strip()`: drop whitespace from both ends. -/
def pyStrip (cs : List Char) : List Char :=
  ((cs.dropWhile Char.isWhitespace).reverse.dropWhile Char.isWhitespace).reverse

/-- Python `str.rstrip()`: drop whitespace from the right end. -/
def pyRstrip (cs : List Char) : List Char :=
  (cs.reverse.dropWhile Char.isWhitespace).reverse

/-- Python `str.splitlines()` restricted to `\n` line boundaries: like
splitting on `\n` but with no empty final piece for a trailing newline. -/
def pySplitlines (s : String) : List String :=
  let gs := splitOnChar '\n' s.data
  let gs' :=
    match gs.getLast? with
    | some [] => gs.dropLast
    | _ => gs
  gs'.map String.mk

/-- Split a character list at every whitespace character, keeping empty
pieces. -/
def splitAtWhitespace : List Char → List (List Char)
  | [] => [[]]
  | ch :: rest =>
    let r := splitAtWhitespace rest
    if ch.isWhitespace then [] :: r
    else
      match r with
      | g :: gs => (ch :: g) :: gs
      | [] => [[ch]]

/-- Python `str.split()` with no argument: split on whitespace runs,
dropping empty pieces (used for `pv_options` at line 113). -/
def pySplitWhitespace (s : String) : List String :=
  ((splitAtWhitespace s.data).filter (fun g => !g.isEmpty)).map String.mk

/-- Field split of one `pvs` output line: `line.strip().split(';')`
(line 89), as strings. -/
def lineFields (line : String) : List String :=
  (splitOnChar ';' (pyStrip line.data)).map String.mk

/-- The message of the crash a Python `IndexError` produces. -/
def indexErrorMsg : String := "IndexError: list index out of range"

/-- The message of the crash at line 121 when `dev_list` was never assigned. -/
def unboundMsg : String := "UnboundLocalError: local variable dev_list referenced before assignment"

/-- Embedding of `find_mapper_device_name` (lines 75-82): run `dmsetup`,
fail the module if it exits non-zero, else return
`/dev/mapper/ + dm_name.rstrip()`. -/
def find_mapper_device_name (env : Env) (dm_device : String) : List Cmd × Except Outcome String :=
  let r := env.dmsetup_run dm_device
  ([Cmd.dmsetup dm_device],
    if r.rc ≠ 0 then Except.error (Outcome.failCmd "Failed executing dmsetup command." r.rc r.err)
    else Except.ok ("/dev/mapper/" ++ String.mk (pyRstrip r.out.data)))

/-- Processing of one line of `pvs` output inside the `parse_pvs` loop
(lines 89-96): strip and split on `;`; if field 0 has the `/dev/dm-`
kernel-node form, rewrite it through `find_mapper_device_name` (this happens
before fields 1-3 are read); then read `vg_name`, `pv_size`, `pv_free` from
fields 1-3, crashing with `IndexError` when the line has too few fields. -/
def parseLine (env : Env) (line : String) : List Cmd × Except Outcome (String × VolumeRecord) :=
  match lineFields line with
  | [] => ([], Except.error (Outcome.pyError indexErrorMsg))
  | p0 :: rest =>
    let kr :=
      if "/dev/dm-".data.isPrefixOf p0.data then find_mapper_device_name env p0
      else ([], Except.ok p0)
    (kr.1,
      match kr.2 with
      | Except.error o => Except.error o
      | Except.ok key =>
        match rest with
        | vg :: size :: free :: _ => Except.ok (key, ⟨vg, size, free⟩)
        | _ => Except.error (Outcome.pyError indexErrorMsg))

/-- The `for line in data.splitlines()` loop of `parse_pvs` (lines 88-96):
lines are processed in order and a failure (`fail_json` from `dmsetup`, or
the `IndexError` crash) aborts the loop at that line. -/
def parsePvsLines (env : Env) : List String → List Cmd × Except Outcome Inventory
  | [] => ([], Except.ok [])
  | line :: rest =>
    match parseLine env line with
    | (t, Except.error o) => (t, Except.error o)
    | (t, Except.ok kv) =>
      match parsePvsLines env rest with
      | (t2, Except.error o) => (t ++ t2, Except.error o)
      | (t2, Except.ok inv) => (t ++ t2, Except.ok (kv :: inv))

/-- Embedding of `parse_pvs` (lines 85-97). -/
def parse_pvs (env : Env) (data : String) : List Cmd × Except Outcome Inventory :=
  parsePvsLines env (pySplitlines data)

/-- The body of the `state == 'present'` reconciliation loop for one device
(lines 142-150).  Returns the commands invoked and either this device's
contribution to `changed` or a terminating outcome. -/
def presentStep (env : Env) (check_mode : Bool) (pv_options : List String) (pvs_data : Inventory)
    (dev : String) : List Cmd × Except Outcome Bool :=
  match invFind pvs_data dev with
  | some _ => ([], Except.ok false)
  | none =>
    if check_mode then ([], Except.error (Outcome.exitJson true))
    else
      let r := env.pvcreate_run dev
      if r.rc = 0 then ([Cmd.pvcreate pv_options dev], Except.ok true)
      else
        ([Cmd.pvcreate pv_options dev],
          Except.error (Outcome.failCmd ("Creating physical volume " ++ dev ++ " failed") r.rc r.err))

/-- The body of the `state == 'absent'` reconciliation loop for one device
(lines 152-171). -/
def absentStep (env : Env) (check_mode force : Bool) (pvs_data : Inventory)
    (dev : String) : List Cmd × Except Outcome Bool :=
  match invFind pvs_data dev with
  | none => ([], Except.ok false)
  | some r =>
    if check_mode then ([], Except.error (Outcome.exitJson true))
    else if force = false then
      if r.pv_size = r.pv_free ∧ r.vg_name = "" then
        let c := env.pvremove_run dev
        if c.rc = 0 then ([Cmd.pvremove dev], Except.ok true)
        else
          ([Cmd.pvremove dev],
            Except.error (Outcome.failCmd ("Failed to remove physical volume " ++ dev) c.rc c.err))
      else
        ([],
          Except.error (Outcome.failMsg
            ("Refuse to remove physical volume " ++ dev ++
              " being in use by volume group " ++ r.vg_name ++ " without force=yes")))
    else
      let c := env.pvremove_forced_run dev
      if c.rc = 0 then ([Cmd.pvremoveForced dev], Except.ok true)
      else
        ([Cmd.pvremoveForced dev],
          Except.error (Outcome.failCmd ("Failed to remove physical volume " ++ dev) c.rc c.err))

/-- The reconciliation loop over `dev_list` (lines 141-171), with the
`changed` accumulator: a step's `Except.error` outcome terminates the run,
a step's `Except.ok` contribution is or-ed into `changed`, and the loop
falls through to `module.exit_json(changed=changed)` (line 173). -/
def runLoop (step : String → List Cmd × Except Outcome Bool) :
    List String → Bool → List Cmd × Outcome
  | [], changed => ([], Outcome.exitJson changed)
  | dev :: rest, changed =>
    match step dev with
    | (t, Except.error o) => (t, o)
    | (t, Except.ok c) =>
      match runLoop step rest (changed || c) with
      | (t2, o) => (t ++ t2, o)

/-- Embedding of `main` (lines 100-173).  Not modelled: `get_bin_path`
lookups (the binaries are assumed present) and the `AnsibleModule`
argument coercions, which are input validation outside the module's code. -/
def main (env : Env) (p : Params) : List Cmd × Outcome :=
  let pv_options := pySplitWhitespace p.pv_options
  if p.pvs.isEmpty then
    if p.state = "present" then ([], Outcome.failMsg "No physical volumes given.")
    else ([], Outcome.pyError unboundMsg)
  else
    let dev_list := p.pvs.map env.realpath
    match (if p.state = "present" then dev_list.find? (fun d => ! env.path_exists d) else none) with
    | some dev => ([], Outcome.failMsg ("Device " ++ dev ++ " not found."))
    | none =>
      if env.pvs_run.rc ≠ 0 then
        ([Cmd.pvsList], Outcome.failCmd "Failed executing pvs command." env.pvs_run.rc env.pvs_run.err)
      else
        let pr := parse_pvs env env.pvs_run.out
        match pr.2 with
        | Except.error o => (Cmd.pvsList :: pr.1, o)
        | Except.ok pvs_data =>
          if p.state = "present" then
            let lr := runLoop (presentStep env p.check_mode pv_options pvs_data) dev_list false
            (Cmd.pvsList :: (pr.1 ++ lr.1), lr.2)
          else if p.state = "absent" then
            let lr := runLoop (absentStep env p.check_mode p.force pvs_data) dev_list false
            (Cmd.pvsList :: (pr.1 ++ lr.1), lr.2)
          else (Cmd.pvsList :: pr.1, Outcome.exitJson false)

/-- Concatenated traces of running `step` on each device of a list. -/
def stepTraces (step : String → List Cmd × Except Outcome Bool) (l : List String) : List Cmd :=
  (l.map (fun d => (step d).1)).flatten

/-- Records and environments with concrete data, used to instantiate the
theorems below: `/dev/sda1` is a physical volume inside group `vg0` with
unequal total and free sizes, `/dev/sdb1` is a free one with equal sizes
and no group. -/
def rUsed : VolumeRecord := ⟨"vg0", "100B", "50B"⟩

/-- Record of a free physical volume: no group, total equals free. -/
def rFree : VolumeRecord := ⟨"", "100B", "100B"⟩

/-- Record of a freshly created physical volume. -/
def rNew : VolumeRecord := ⟨"", "10B", "10B"⟩

/-- The inventory the listing output of `envW` parses to. -/
def invW : Inventory := [("/dev/sda1", rUsed), ("/dev/sdb1", rFree)]

/-- The inventory the listing output of `env2W` parses to. -/
def inv2W : Inventory := [("/dev/sda1", rUsed), ("/dev/sdb1", rFree), ("/dev/sdc1", rNew)]

/-- A concrete healthy host: identity `realpath`, every path exists, all
commands succeed. -/
def envW : Env :=
  ⟨fun d => d, fun _ => true,
    ⟨0, "/dev/sda1;vg0;100B;50B\n/dev/sdb1;;100B;100B\n", ""⟩,
    fun _ => ⟨0, "mpa\n", ""⟩,
    fun _ => ⟨0, "", ""⟩, fun _ => ⟨0, "", ""⟩, fun _ => ⟨0, "", ""⟩⟩

/-- Like `envW` after `/dev/sdc1` has been created, as a second-run host. -/
def env2W : Env :=
  ⟨fun d => d, fun _ => true,
    ⟨0, "/dev/sda1;vg0;100B;50B\n/dev/sdb1;;100B;100B\n/dev/sdc1;;10B;10B\n", ""⟩,
    fun _ => ⟨0, "mpa\n", ""⟩,
    fun _ => ⟨0, "", ""⟩, fun _ => ⟨0, "", ""⟩, fun _ => ⟨0, "", ""⟩⟩

/-- Like `envW` but with `/dev/link1` a symbolic link to `/dev/sda1`. -/
def envSym : Env :=
  ⟨fun d => if d = "/dev/link1" then "/dev/sda1" else d, fun _ => true,
    ⟨0, "/dev/sda1;vg0;100B;50B\n/dev/sdb1;;100B;100B\n", ""⟩,
    fun _ => ⟨0, "mpa\n", ""⟩,
    fun _ => ⟨0, "", ""⟩, fun _ => ⟨0, "", ""⟩, fun _ => ⟨0, "", ""⟩⟩

/-- Like `envW` but the `pvs` listing command fails. -/
def envFail : Env :=
  ⟨fun d => d, fun _ => true,
    ⟨3, "", "pvs boom"⟩,
    fun _ => ⟨0, "mpa\n", ""⟩,
    fun _ => ⟨0, "", ""⟩, fun _ => ⟨0, "", ""⟩, fun _ => ⟨0, "", ""⟩⟩

/-- Like `envW` but every mutating command fails. -/
def envMut : Env :=
  ⟨fun d => d, fun _ => true,
    ⟨0, "/dev/sda1;vg0;100B;50B\n/dev/sdb1;;100B;100B\n", ""⟩,
    fun _ => ⟨0, "mpa\n", ""⟩,
    fun _ => ⟨5, "", "create failed"⟩, fun _ => ⟨6, "", "remove failed"⟩,
    fun _ => ⟨7, "", "forced failed"⟩⟩

/-- Like `envW` but the path `/dev/sdz1` does not exist on the filesystem. -/
def envMissing : Env :=
  ⟨fun d => d, fun d => if d = "/dev/sdz1" then false else true,
    ⟨0, "/dev/sda1;vg0;100B;50B\n/dev/sdb1;;100B;100B\n", ""⟩,
    fun _ => ⟨0, "mpa\n", ""⟩,
    fun _ => ⟨0, "", ""⟩, fun _ => ⟨0, "", ""⟩, fun _ => ⟨0, "", ""⟩⟩

/-- Record of the device-mapper backed physical volume of `envDm`. -/
def rDm : VolumeRecord := ⟨"vg1", "7B", "7B"⟩

/-- The inventory the listing output of `envDm` parses to: the `/dev/dm-0`
key has been rewritten to its `/dev/mapper/mpa` alias. -/
def invDm : Inventory := [("/dev/mapper/mpa", rDm)]

/-- A host whose only physical volume sits on a device-mapper node. -/
def envDm : Env :=
  ⟨fun d => d, fun _ => true,
    ⟨0, "/dev/dm-0;vg1;7B;7B\n", ""⟩,
    fun _ => ⟨0, "mpa\n", ""⟩,
    fun _ => ⟨0, "", ""⟩, fun _ => ⟨0, "", ""⟩, fun _ => ⟨0, "", ""⟩⟩

/-! ### Helper lemmas -/

theorem find_mapper_fst (env : Env) (d : String) :
    (find_mapper_device_name env d).1 = [Cmd.dmsetup d] := rfl

theorem presentStep_mem_trace {env : Env} {ck : Bool} {opts : List String} {inv : Inventory}
    {dev : String} {c : Cmd} (h : c ∈ (presentStep env ck opts inv dev).1) :
    c = Cmd.pvcreate opts dev := by
  unfold presentStep at h
  split at h
  · simp at h
  · dsimp only at h
    split at h
    · simp at h
    · split at h <;> simpa using h

theorem absentStep_mem_trace {env : Env} {ck f : Bool} {inv : Inventory}
    {dev : String} {c : Cmd} (h : c ∈ (absentStep env ck f inv dev).1) :
    c = Cmd.pvremove dev ∨ c = Cmd.pvremoveForced dev := by
  unfold absentStep at h
  split at h
  · simp at h
  · (try dsimp only at h)
    split at h
    · simp at h
    · split at h
      · split at h
        · split at h <;> simp_all
        · simp at h
      · split at h <;> simp_all

theorem runLoop_mem_trace {step : String → List Cmd × Except Outcome Bool}
    {l : List String} {ch : Bool} {c : Cmd} (h : c ∈ (runLoop step l ch).1) :
    ∃ d ∈ l, c ∈ (step d).1 := by
  induction l generalizing ch with
  | nil => simp [runLoop] at h
  | cons dev rest ih =>
    rw [runLoop] at h
    rcases hs : step dev with ⟨t, r⟩
    rw [hs] at h
    cases r with
    | error o =>
      exact ⟨dev, by simp, by rw [hs]; exact h⟩
    | ok cc =>
      dsimp only at h
      rcases hr : runLoop step rest (ch || cc) with ⟨t2, o⟩
      rw [hr] at h
      simp only [List.mem_append] at h
      rcases h with h | h
      · exact ⟨dev, by simp, by rw [hs]; exact h⟩
      · obtain ⟨d, hd, hc⟩ := ih (by rw [hr]; exact h)
        exact ⟨d, by simp [hd], hc⟩

theorem parseLine_mem_trace {env : Env} {line : String} {c : Cmd}
    (h : c ∈ (parseLine env line).1) : ∃ d, c = Cmd.dmsetup d := by
  unfold parseLine at h
  rcases hf : lineFields line with _ | ⟨p0, rest⟩
  · rw [hf] at h
    simp at h
  · rw [hf] at h
    dsimp only at h
    split at h
    · rw [find_mapper_fst] at h
      simp at h
      exact ⟨p0, h⟩
    · simp at h

theorem parsePvsLines_mem_trace {env : Env} {lines : List String} {c : Cmd}
    (h : c ∈ (parsePvsLines env lines).1) : ∃ d, c = Cmd.dmsetup d := by
  induction lines with
  | nil => simp [parsePvsLines] at h
  | cons line rest ih =>
    rw [parsePvsLines] at h
    rcases hp : parseLine env line with ⟨t, r⟩
    rw [hp] at h
    cases r with
    | error o => exact parseLine_mem_trace (by rw [hp]; exact h)
    | ok kv =>
      rcases hr : parsePvsLines env rest with ⟨t2, r2⟩
      rw [hr] at h
      have : c ∈ t ++ t2 := by
        cases r2 <;> simpa using h
      rcases List.mem_append.mp this with h' | h'
      · exact parseLine_mem_trace (by rw [hp]; exact h')
      · exact ih (by rw [hr]; exact h')

theorem runLoop_check_noop {step : String → List Cmd × Except Outcome Bool} {noop : String → Bool}
    (h : ∀ d, step d = ([], if noop d then Except.ok false else Except.error (Outcome.exitJson true)))
    (l : List String) (ch : Bool) :
    runLoop step l ch = ([], Outcome.exitJson (ch || l.any (fun d => ! noop d))) := by
  induction l generalizing ch with
  | nil => simp [runLoop]
  | cons dev rest ih =>
    rw [runLoop, h dev]
    by_cases hn : noop dev = true
    · rw [if_pos hn]
      dsimp only
      rw [ih]
      simp [hn]
    · rw [if_neg hn]
      dsimp only
      simp only [Bool.not_eq_true] at hn
      simp [hn]

theorem runLoop_ok_outcome {step : String → List Cmd × Except Outcome Bool} {f : String → Bool}
    {l : List String} (h : ∀ d ∈ l, (step d).2 = Except.ok (f d)) (ch : Bool) :
    (runLoop step l ch).2 = Outcome.exitJson (ch || l.any f) := by
  induction l generalizing ch with
  | nil => simp [runLoop]
  | cons dev rest ih =>
    rw [runLoop]
    rcases hs : step dev with ⟨t, r⟩
    have h2 := h dev (by simp)
    rw [hs] at h2
    simp only at h2
    subst h2
    dsimp only
    rcases hr : runLoop step rest (ch || f dev) with ⟨t2, o⟩
    have ho := ih (fun d hd => h d (by simp [hd])) (ch || f dev)
    rw [hr] at ho
    simp only at ho
    simp [ho, Bool.or_assoc]

theorem runLoop_ok_trace {step : String → List Cmd × Except Outcome Bool}
    {l : List String} (h : ∀ d ∈ l, ∃ c, (step d).2 = Except.ok c) (ch : Bool) :
    (runLoop step l ch).1 = stepTraces step l := by
  induction l generalizing ch with
  | nil => simp [runLoop, stepTraces]
  | cons dev rest ih =>
    rw [runLoop]
    rcases hs : step dev with ⟨t, r⟩
    obtain ⟨cc, hcc⟩ := h dev (by simp)
    rw [hs] at hcc
    simp only at hcc
    subst hcc
    dsimp only
    rcases hr : runLoop step rest (ch || cc) with ⟨t2, o⟩
    have ht := ih (fun d hd => h d (by simp [hd])) (ch || cc)
    rw [hr] at ht
    simp only at ht
    simp [stepTraces, hs, ht]

theorem runLoop_error_at {step : String → List Cmd × Except Outcome Bool}
    {l1 : List String} {dev : String} {o : Outcome}
    (h1 : ∀ x ∈ l1, ∃ c, (step x).2 = Except.ok c)
    (h2 : (step dev).2 = Except.error o) (l2 : List String) (ch : Bool) :
    runLoop step (l1 ++ dev :: l2) ch = (stepTraces step l1 ++ (step dev).1, o) := by
  induction l1 generalizing ch with
  | nil =>
    rw [List.nil_append, runLoop]
    rcases hs : step dev with ⟨t, r⟩
    rw [hs] at h2
    simp only at h2
    subst h2
    dsimp only
    simp [stepTraces, hs]
  | cons x rest ih =>
    rw [List.cons_append, runLoop]
    rcases hs : step x with ⟨t, r⟩
    obtain ⟨cc, hcc⟩ := h1 x (by simp)
    rw [hs] at hcc
    simp only at hcc
    subst hcc
    dsimp only
    rw [ih (fun y hy => h1 y (by simp [hy])) (ch || cc)]
    simp [stepTraces, hs]

theorem presentStep_check (env : Env) (opts : List String) (inv : Inventory) (dev : String) :
    presentStep env true opts inv dev =
      ([], if (invFind inv dev).isSome then Except.ok false
           else Except.error (Outcome.exitJson true)) := by
  unfold presentStep
  cases h : invFind inv dev <;> simp

theorem absentStep_check (env : Env) (f : Bool) (inv : Inventory) (dev : String) :
    absentStep env true f inv dev =
      ([], if (invFind inv dev).isSome then Except.error (Outcome.exitJson true)
           else Except.ok false) := by
  unfold absentStep
  cases h : invFind inv dev <;> simp

theorem parsePvsLines_ok_forall2 {env : Env} {lines : List String} {inv : Inventory}
    (h : (parsePvsLines env lines).2 = Except.ok inv) :
    List.Forall₂ (fun line kv => (parseLine env line).2 = Except.ok kv) lines inv := by
  induction lines generalizing inv with
  | nil =>
    simp [parsePvsLines] at h
    subst h
    exact List.Forall₂.nil
  | cons line rest ih =>
    rw [parsePvsLines] at h
    rcases hp : parseLine env line with ⟨t, r⟩
    rw [hp] at h
    cases r with
    | error o => simp at h
    | ok kv =>
      dsimp only at h
      rcases hr : parsePvsLines env rest with ⟨t2, r2⟩
      rw [hr] at h
      cases r2 with
      | error o => simp at h
      | ok inv2 =>
        simp only [Except.ok.injEq] at h
        subst h
        exact List.Forall₂.cons (by rw [hp]) (ih (by rw [hr]))

theorem parseLine_ok_short {env : Env} {line : String} {kv : String × VolumeRecord}
    (hlen : (lineFields line).length < 4)
    (h : (parseLine env line).2 = Except.ok kv) : False := by
  unfold parseLine at h
  rcases hf : lineFields line with _ | ⟨p0, rest⟩ <;> rw [hf] at h
  · simp at h
  · rw [hf] at hlen
    simp only [List.length_cons] at hlen
    dsimp only at h
    split at h
    · simp at h
    · split at h
      · simp only [List.length_cons] at hlen
        omega
      · simp at h

theorem parseLine_ok_key {env : Env} {line : String} {kv : String × VolumeRecord}
    (h : (parseLine env line).2 = Except.ok kv) :
    ∃ p0 rest, lineFields line = p0 :: rest ∧
      (if "/dev/dm-".data.isPrefixOf p0.data
       then (find_mapper_device_name env p0).2 = Except.ok kv.1
       else kv.1 = p0) := by
  unfold parseLine at h
  rcases hf : lineFields line with _ | ⟨p0, rest⟩ <;> rw [hf] at h
  · simp at h
  · dsimp only at h
    refine ⟨p0, rest, rfl, ?_⟩
    by_cases hdm : ("/dev/dm-".data.isPrefixOf p0.data) = true
    · rw [if_pos hdm]
      rw [if_pos hdm] at h
      rcases hm : (find_mapper_device_name env p0).2 with o | key
      · rw [hm] at h
        simp at h
      · rw [hm] at h
        dsimp only at h
        split at h
        · simp only [Except.ok.injEq] at h
          rw [← h]
        · simp at h
    · rw [if_neg hdm]
      rw [if_neg hdm] at h
      dsimp only at h
      split at h
      · simp only [Except.ok.injEq] at h
        rw [← h]
      · simp at h

theorem main_present_eq (env : Env) (p : Params) {inv : Inventory} {pt : List Cmd}
    (h1 : p.pvs.isEmpty = false) (h2 : p.state = "present")
    (h3 : ∀ d ∈ p.pvs.map env.realpath, env.path_exists d = true)
    (h4 : env.pvs_run.rc = 0)
    (h5 : parse_pvs env env.pvs_run.out = (pt, Except.ok inv)) :
    main env p =
      (Cmd.pvsList ::
        (pt ++ (runLoop (presentStep env p.check_mode (pySplitWhitespace p.pv_options) inv)
          (p.pvs.map env.realpath) false).1),
        (runLoop (presentStep env p.check_mode (pySplitWhitespace p.pv_options) inv)
          (p.pvs.map env.realpath) false).2) := by
  have hf : (p.pvs.map env.realpath).find? (fun d => ! env.path_exists d) = none := by
    rw [List.find?_eq_none]
    intro x hx
    simp [h3 x hx]
  unfold main
  simp only [h1, h2, h4, h5, hf]
  simp

theorem parse_pvs_mem_trace {env : Env} {data : String} {c : Cmd}
    (h : c ∈ (parse_pvs env data).1) : ∃ d, c = Cmd.dmsetup d :=
  parsePvsLines_mem_trace h

theorem absentStep_check_notin (env : Env) (f : Bool) (inv : Inventory) (dev : String) :
    absentStep env true f inv dev =
      ([], if (invFind inv dev).isNone then Except.ok false
           else Except.error (Outcome.exitJson true)) := by
  rw [absentStep_check]
  cases invFind inv dev <;> simp

theorem main_absent_eq (env : Env) (p : Params) {inv : Inventory} {pt : List Cmd}
    (h1 : p.pvs.isEmpty = false) (h2 : p.state = "absent")
    (h4 : env.pvs_run.rc = 0)
    (h5 : parse_pvs env env.pvs_run.out = (pt, Except.ok inv)) :
    main env p =
      (Cmd.pvsList ::
        (pt ++ (runLoop (absentStep env p.check_mode p.force inv)
          (p.pvs.map env.realpath) false).1),
        (runLoop (absentStep env p.check_mode p.force inv)
          (p.pvs.map env.realpath) false).2) := by
  unfold main
  simp only [h1, h2, h4, h5]
  simp

theorem main_find_fail (env : Env) (p : Params) {dev : String}
    (h1 : p.pvs.isEmpty = false) (h2 : p.state = "present")
    (hf : (p.pvs.map env.realpath).find? (fun d => ! env.path_exists d) = some dev) :
    main env p = ([], Outcome.failMsg ("Device " ++ dev ++ " not found.")) := by
  unfold main
  simp only [h1, h2, hf]
  simp

theorem main_pvs_fail (env : Env) (p : Params)
    (h1 : p.pvs.isEmpty = false)
    (h3 : p.state = "present" → ∀ d ∈ p.pvs.map env.realpath, env.path_exists d = true)
    (h4 : env.pvs_run.rc ≠ 0) :
    main env p =
      ([Cmd.pvsList], Outcome.failCmd "Failed executing pvs command." env.pvs_run.rc env.pvs_run.err) := by
  unfold main
  by_cases hst : p.state = "present"
  · have hf : (p.pvs.map env.realpath).find? (fun d => ! env.path_exists d) = none := by
      rw [List.find?_eq_none]
      intro x hx
      simp [h3 hst x hx]
    simp only [h1, hst, hf]
    simp [h4]
  · simp only [h1]
    rw [if_neg hst]
    simp only [Bool.false_eq_true, if_false]
    rw [if_neg hst]
    simp [h4]

theorem main_trace_structure (env : Env) (p : Params) :
    (main env p).1 = [] ∨
    ∃ pt lt, (main env p).1 = Cmd.pvsList :: (pt ++ lt) ∧
      (∀ c ∈ pt, ∃ d, c = Cmd.dmsetup d) ∧
      (∀ c ∈ lt, c.isMutating = true) ∧
      (p.check_mode = true → lt = []) := by
  unfold main
  by_cases h1 : p.pvs.isEmpty
  · left
    simp only [h1, if_true]
    split <;> rfl
  · rw [Bool.not_eq_true] at h1
    simp only [h1, Bool.false_eq_true, if_false]
    split
    · left; rfl
    · split
      · right
        exact ⟨[], [], by simp, by simp, by simp, fun _ => rfl⟩
      · split
        · right
          refine ⟨(parse_pvs env env.pvs_run.out).1, [], by simp, ?_, by simp, fun _ => rfl⟩
          intro c hc
          exact parse_pvs_mem_trace hc
        next pvs_data heq =>
          split
          next hpres =>
            right
            refine ⟨(parse_pvs env env.pvs_run.out).1,
              (runLoop (presentStep env p.check_mode (pySplitWhitespace p.pv_options) pvs_data)
                (p.pvs.map env.realpath) false).1, rfl, ?_, ?_, ?_⟩
            · intro c hc
              exact parse_pvs_mem_trace hc
            · intro c hc
              obtain ⟨d, _, hcd⟩ := runLoop_mem_trace hc
              rw [presentStep_mem_trace hcd]
              rfl
            · intro hck
              rw [hck]
              rw [runLoop_check_noop (fun d => presentStep_check env (pySplitWhitespace p.pv_options) pvs_data d)]
          next hpres =>
            split
            next habs =>
              right
              refine ⟨(parse_pvs env env.pvs_run.out).1,
                (runLoop (absentStep env p.check_mode p.force pvs_data)
                  (p.pvs.map env.realpath) false).1, rfl, ?_, ?_, ?_⟩
              · intro c hc
                exact parse_pvs_mem_trace hc
              · intro c hc
                obtain ⟨d, _, hcd⟩ := runLoop_mem_trace hc
                rcases absentStep_mem_trace hcd with h | h <;> rw [h] <;> rfl
              · intro hck
                rw [hck]
                rw [runLoop_check_noop (fun d => absentStep_check_notin env p.force pvs_data d)]
            next habs =>
              right
              refine ⟨(parse_pvs env env.pvs_run.out).1, [], by simp, ?_, by simp, fun _ => rfl⟩
              intro c hc
              exact parse_pvs_mem_trace hc


theorem bnot_isSome (o : Option VolumeRecord) : (! o.isSome) = o.isNone := by
  cases o <;> rfl

theorem bnot_isNone (o : Option VolumeRecord) : (! o.isNone) = o.isSome := by
  cases o <;> rfl

theorem presentStep_in (env : Env) (opts : List String) (inv : Inventory) (dev : String)
    {r : VolumeRecord} (h : invFind inv dev = some r) :
    presentStep env false opts inv dev = ([], Except.ok false) := by
  unfold presentStep
  rw [h]

theorem presentStep_missing_ok (env : Env) (opts : List String) (inv : Inventory) (dev : String)
    (h : invFind inv dev = none) (hrc : (env.pvcreate_run dev).rc = 0) :
    presentStep env false opts inv dev = ([Cmd.pvcreate opts dev], Except.ok true) := by
  unfold presentStep
  rw [h]
  simp [hrc]

theorem presentStep_missing_fail (env : Env) (opts : List String) (inv : Inventory) (dev : String)
    (h : invFind inv dev = none) (hrc : (env.pvcreate_run dev).rc ≠ 0) :
    presentStep env false opts inv dev =
      ([Cmd.pvcreate opts dev],
        Except.error (Outcome.failCmd ("Creating physical volume " ++ dev ++ " failed")
          (env.pvcreate_run dev).rc (env.pvcreate_run dev).err)) := by
  unfold presentStep
  rw [h]
  simp [hrc]

theorem absentStep_notin (env : Env) (f : Bool) (inv : Inventory) (dev : String)
    (h : invFind inv dev = none) :
    absentStep env false f inv dev = ([], Except.ok false) := by
  unfold absentStep
  rw [h]

theorem absentStep_graceful_ok (env : Env) (inv : Inventory) (dev : String)
    {r : VolumeRecord} (h : invFind inv dev = some r)
    (hc : r.pv_size = r.pv_free ∧ r.vg_name = "") (hrc : (env.pvremove_run dev).rc = 0) :
    absentStep env false false inv dev = ([Cmd.pvremove dev], Except.ok true) := by
  unfold absentStep
  rw [h]
  simp [hc, hrc]

theorem absentStep_graceful_fail (env : Env) (inv : Inventory) (dev : String)
    {r : VolumeRecord} (h : invFind inv dev = some r)
    (hc : r.pv_size = r.pv_free ∧ r.vg_name = "") (hrc : (env.pvremove_run dev).rc ≠ 0) :
    absentStep env false false inv dev =
      ([Cmd.pvremove dev],
        Except.error (Outcome.failCmd ("Failed to remove physical volume " ++ dev)
          (env.pvremove_run dev).rc (env.pvremove_run dev).err)) := by
  unfold absentStep
  rw [h]
  simp [hc, hrc]

theorem absentStep_refuse (env : Env) (inv : Inventory) (dev : String)
    {r : VolumeRecord} (h : invFind inv dev = some r)
    (hc : ¬(r.pv_size = r.pv_free ∧ r.vg_name = "")) :
    absentStep env false false inv dev =
      ([], Except.error (Outcome.failMsg
        ("Refuse to remove physical volume " ++ dev ++
          " being in use by volume group " ++ r.vg_name ++ " without force=yes"))) := by
  unfold absentStep
  rw [h]
  simp [hc]

theorem absentStep_forced (env : Env) (inv : Inventory) (dev : String)
    {r : VolumeRecord} (h : invFind inv dev = some r) :
    absentStep env false true inv dev =
      ([Cmd.pvremoveForced dev],
        if (env.pvremove_forced_run dev).rc = 0 then Except.ok true
        else Except.error (Outcome.failCmd ("Failed to remove physical volume " ++ dev)
          (env.pvremove_forced_run dev).rc (env.pvremove_forced_run dev).err)) := by
  unfold absentStep
  rw [h]
  by_cases hc : (env.pvremove_forced_run dev).rc = 0 <;> simp [hc]

theorem forall2_mem_left {α β : Type} {R : α → β → Prop} {l1 : List α} {l2 : List β}
    (h : List.Forall₂ R l1 l2) {a : α} (ha : a ∈ l1) : ∃ b ∈ l2, R a b := by
  induction h with
  | nil => simp at ha
  | cons hr _ ih =>
    rcases List.mem_cons.mp ha with rfl | ha'
    · exact ⟨_, by simp, hr⟩
    · obtain ⟨b, hb, hab⟩ := ih ha'
      exact ⟨b, by simp [hb], hab⟩

theorem parseLine_ok_of_long {env : Env} {line : String}
    (hlen : 4 ≤ (lineFields line).length)
    (hdm : ∀ d, (env.dmsetup_run d).rc = 0) :
    ∃ kv, (parseLine env line).2 = Except.ok kv := by
  unfold parseLine
  rcases hf : lineFields line with _ | ⟨p0, rest⟩ <;> rw [hf] at hlen
  · simp at hlen
  · rcases rest with _ | ⟨a, rest⟩
    · simp at hlen
    rcases rest with _ | ⟨b, rest⟩
    · simp at hlen
    rcases rest with _ | ⟨c, rest⟩
    · simp at hlen
    · dsimp only
      by_cases hp : ("/dev/dm-".data.isPrefixOf p0.data) = true
      · rw [if_pos hp]
        have hmok : (find_mapper_device_name env p0).2 =
            Except.ok ("/dev/mapper/" ++ String.mk (pyRstrip (env.dmsetup_run p0).out.data)) := by
          unfold find_mapper_device_name
          simp [hdm p0]
        rw [hmok]
        exact ⟨_, rfl⟩
      · rw [if_neg hp]
        exact ⟨_, rfl⟩

theorem parsePvsLines_ok_of_long {env : Env} {lines : List String}
    (hlen : ∀ line ∈ lines, 4 ≤ (lineFields line).length)
    (hdm : ∀ d, (env.dmsetup_run d).rc = 0) :
    ∃ inv, (parsePvsLines env lines).2 = Except.ok inv := by
  induction lines with
  | nil => exact ⟨[], rfl⟩
  | cons line rest ih =>
    obtain ⟨kv, hkv⟩ := parseLine_ok_of_long (hlen line (by simp)) hdm
    obtain ⟨inv2, hinv2⟩ := ih (fun x hx => hlen x (by simp [hx]))
    rw [parsePvsLines]
    rcases hp : parseLine env line with ⟨t, r⟩
    rw [hp] at hkv
    simp only at hkv
    subst hkv
    dsimp only
    rcases hr : parsePvsLines env rest with ⟨t2, r2⟩
    rw [hr] at hinv2
    simp only at hinv2
    subst hinv2
    exact ⟨kv :: inv2, rfl⟩

theorem stepTraces_count_pvcreate_zero (env : Env) (opts : List String) (inv : Inventory)
    {l : List String} {dev : String} (hdev : dev ∉ l) :
    (stepTraces (presentStep env false opts inv) l).count (Cmd.pvcreate opts dev) = 0 := by
  rw [List.count_eq_zero]
  intro hmem
  obtain ⟨L, hL, hcL⟩ := List.mem_flatten.mp hmem
  obtain ⟨x, hx, hxL⟩ := List.mem_map.mp hL
  subst hxL
  have hpx := presentStep_mem_trace hcL
  simp only [Cmd.pvcreate.injEq] at hpx
  exact hdev (hpx.2 ▸ hx)

theorem stepTraces_count_pvcreate_one (env : Env) (opts : List String) (inv : Inventory)
    {l : List String} (hnd : l.Nodup)
    (hrc : ∀ x, (env.pvcreate_run x).rc = 0) {dev : String}
    (hdev : dev ∈ l) (hmiss : invFind inv dev = none) :
    (stepTraces (presentStep env false opts inv) l).count (Cmd.pvcreate opts dev) = 1 := by
  induction l with
  | nil => simp at hdev
  | cons x rest ih =>
    have hsplit : stepTraces (presentStep env false opts inv) (x :: rest) =
        (presentStep env false opts inv x).1 ++ stepTraces (presentStep env false opts inv) rest := by
      simp [stepTraces]
    rw [hsplit, List.count_append]
    rcases List.mem_cons.mp hdev with rfl | hdev'
    · have h1 : (presentStep env false opts inv dev).1 = [Cmd.pvcreate opts dev] := by
        rw [presentStep_missing_ok env opts inv dev hmiss (hrc dev)]
      rw [h1]
      have h0 : (stepTraces (presentStep env false opts inv) rest).count (Cmd.pvcreate opts dev) = 0 :=
        stepTraces_count_pvcreate_zero env opts inv (List.nodup_cons.mp hnd).1
      rw [h0]
      simp
    · have hx : x ≠ dev := by
        intro hxe
        exact (List.nodup_cons.mp hnd).1 (hxe ▸ hdev')
      have h0 : ((presentStep env false opts inv x).1).count (Cmd.pvcreate opts dev) = 0 := by
        rw [List.count_eq_zero]
        intro hmem
        have hpx := presentStep_mem_trace hmem
        simp only [Cmd.pvcreate.injEq] at hpx
        exact hx hpx.2.symm
      rw [h0, ih (List.nodup_cons.mp hnd).2 hdev']
/-! ### Claim theorems -/

/-- C1: with state `absent`, `force=false`, not in check mode, for a device
present in the inventory the graceful `pvremove` is invoked if and only if
the recorded total size equals the recorded free size and the containing
group is empty; otherwise nothing is invoked for the device and the run
terminates with the policy-refusal message naming the device's group. -/
theorem C1_absent_graceful_gate (env : Env) (inv : Inventory) (dev : String)
    (r : VolumeRecord) (h : invFind inv dev = some r) :
    ((Cmd.pvremove dev ∈ (absentStep env false false inv dev).1) ↔
      (r.pv_size = r.pv_free ∧ r.vg_name = "")) ∧
    (¬(r.pv_size = r.pv_free ∧ r.vg_name = "") →
      absentStep env false false inv dev =
        ([], Except.error (Outcome.failMsg
          ("Refuse to remove physical volume " ++ dev ++
            " being in use by volume group " ++ r.vg_name ++ " without force=yes"))) ∧
      (∀ (l2 : List String) (ch : Bool),
        runLoop (absentStep env false false inv) (dev :: l2) ch =
          ([], Outcome.failMsg
            ("Refuse to remove physical volume " ++ dev ++
              " being in use by volume group " ++ r.vg_name ++ " without force=yes")))) := by
  by_cases hc : r.pv_size = r.pv_free ∧ r.vg_name = ""
  · refine ⟨⟨fun _ => hc, fun _ => ?_⟩, fun hn => absurd hc hn⟩
    by_cases hrc : (env.pvremove_run dev).rc = 0
    · rw [absentStep_graceful_ok env inv dev h hc hrc]
      simp
    · rw [absentStep_graceful_fail env inv dev h hc hrc]
      simp
  · have hstep := absentStep_refuse env inv dev h hc
    refine ⟨?_, fun _ => ⟨hstep, fun l2 ch => ?_⟩⟩
    · rw [hstep]
      simp [hc]
    · rw [runLoop, hstep]

/-- C1 witness: on the concrete host `envW`, `/dev/sda1` is in use by `vg0`
with unequal sizes, so the graceful removal is not invoked. -/
theorem C1_witness :
    invFind invW "/dev/sda1" = some rUsed ∧
    ((Cmd.pvremove "/dev/sda1" ∈ (absentStep envW false false invW "/dev/sda1").1) ↔
      (rUsed.pv_size = rUsed.pv_free ∧ rUsed.vg_name = "")) :=
  ⟨rfl, (C1_absent_graceful_gate envW invW "/dev/sda1" rUsed rfl).1⟩

/-- C3: contrary to the claim, the run with an empty (or omitted) device
list and state `absent` does not exit cleanly with `changed=false`: the
code never assigns `dev_list` on that path, so the loop over it at line 121
raises `UnboundLocalError` and the run crashes.  The `present` half of the
claim does hold: an empty list fails with the precondition message. -/
theorem C3_empty_devlist :
    main envW ⟨[], "", "absent", false, false⟩ = ([], Outcome.pyError unboundMsg) ∧
    main envW ⟨[], "", "present", false, false⟩ =
      ([], Outcome.failMsg "No physical volumes given.") :=
  ⟨rfl, rfl⟩

/-- C5: with state `absent`, `force=true`, not in check mode, for a device
present in the inventory the forced removal is invoked unconditionally (the
right-hand side does not consult the record `r`, so the in-use check plays
no part), and on exit code 0 the single-device run reports `changed=true`. -/
theorem C5_forced_removal (env : Env) (inv : Inventory) (dev : String)
    (r : VolumeRecord) (h : invFind inv dev = some r) :
    absentStep env false true inv dev =
      ([Cmd.pvremoveForced dev],
        if (env.pvremove_forced_run dev).rc = 0 then Except.ok true
        else Except.error (Outcome.failCmd ("Failed to remove physical volume " ++ dev)
          (env.pvremove_forced_run dev).rc (env.pvremove_forced_run dev).err)) ∧
    ((env.pvremove_forced_run dev).rc = 0 →
      runLoop (absentStep env false true inv) [dev] false =
        ([Cmd.pvremoveForced dev], Outcome.exitJson true)) := by
  refine ⟨absentStep_forced env inv dev h, fun hrc => ?_⟩
  rw [runLoop, absentStep_forced env inv dev h, if_pos hrc]
  simp [runLoop]

/-- C5 witness: forced removal of the in-use `/dev/sda1` succeeds on `envW`. -/
theorem C5_witness :
    invFind invW "/dev/sda1" = some rUsed ∧
    runLoop (absentStep envW false true invW) ["/dev/sda1"] false =
      ([Cmd.pvremoveForced "/dev/sda1"], Outcome.exitJson true) :=
  ⟨rfl, (C5_forced_removal envW invW "/dev/sda1" rUsed rfl).2 rfl⟩

/-- C7: with state `present` and a non-empty device list, if some resolved
device does not exist on the filesystem the run fails naming the first such
device, with an empty command trace: the whole batch is validated before
the listing command and before any reconciliation or mutation. -/
theorem C7_present_existence_check (env : Env) (p : Params)
    (h2 : p.state = "present") (h1 : p.pvs.isEmpty = false)
    (hex : ∃ d ∈ p.pvs.map env.realpath, env.path_exists d = false) :
    ∃ dev ∈ p.pvs.map env.realpath, env.path_exists dev = false ∧
      main env p = ([], Outcome.failMsg ("Device " ++ dev ++ " not found.")) := by
  have hs : ((p.pvs.map env.realpath).find? (fun d => ! env.path_exists d)).isSome = true := by
    rw [List.find?_isSome]
    obtain ⟨d, hd, hpe⟩ := hex
    exact ⟨d, hd, by simp [hpe]⟩
  obtain ⟨dev, hfind⟩ := Option.isSome_iff_exists.mp hs
  refine ⟨dev, List.mem_of_find?_eq_some hfind, ?_, main_find_fail env p h1 h2 hfind⟩
  have hp := List.find?_some hfind
  simpa using hp

/-- C7 witness: requesting the nonexistent `/dev/sdz1` as present fails up
front on `envMissing` without running any command. -/
theorem C7_witness :
    ∃ dev ∈ (["/dev/sdz1"] : List String).map envMissing.realpath,
      envMissing.path_exists dev = false ∧
      main envMissing ⟨["/dev/sdz1"], "", "present", false, false⟩ =
        ([], Outcome.failMsg ("Device " ++ dev ++ " not found.")) :=
  C7_present_existence_check envMissing ⟨["/dev/sdz1"], "", "present", false, false⟩
    rfl rfl ⟨"/dev/sdz1", by decide, by decide⟩

/-- C2: in check mode no mutating command (`pvcreate` or any `pvremove`) is
ever invoked, and — when the preliminary steps succeed — the run reports
`changed=true` exactly when some requested device needs a non-no-op action
(the loop short-circuits at the first such device, so the outcome and the
empty mutation trace do not depend on the devices after it), and
`changed=false` when every requested device already matches the desired
state. -/
theorem C2_check_mode (env : Env) (p : Params) (hck : p.check_mode = true) :
    (∀ c ∈ (main env p).1, c.isMutating = false) ∧
    (∀ (inv : Inventory) (pt : List Cmd),
      p.pvs.isEmpty = false → env.pvs_run.rc = 0 →
      parse_pvs env env.pvs_run.out = (pt, Except.ok inv) →
      ((p.state = "present" → (∀ d ∈ p.pvs.map env.realpath, env.path_exists d = true) →
        (main env p).2 =
          Outcome.exitJson ((p.pvs.map env.realpath).any (fun d => (invFind inv d).isNone))) ∧
       (p.state = "absent" →
        (main env p).2 =
          Outcome.exitJson ((p.pvs.map env.realpath).any (fun d => (invFind inv d).isSome))))) := by
  constructor
  · rcases main_trace_structure env p with h | ⟨pt, lt, htr, hpt, hlt, hcknil⟩
    · rw [h]
      intro c hc
      simp at hc
    · rw [htr, hcknil hck]
      intro c hc
      simp only [List.append_nil, List.mem_cons] at hc
      rcases hc with rfl | hc
      · rfl
      · obtain ⟨d, rfl⟩ := hpt c hc
        rfl
  · intro inv pt h1 h4 h5
    constructor
    · intro hpres hex
      rw [main_present_eq env p h1 hpres hex h4 h5]
      dsimp only
      rw [hck,
        runLoop_check_noop (fun d => presentStep_check env (pySplitWhitespace p.pv_options) inv d)]
      simp [bnot_isSome]
    · intro habs
      rw [main_absent_eq env p h1 habs h4 h5]
      dsimp only
      rw [hck, runLoop_check_noop (fun d => absentStep_check_notin env p.force inv d)]
      simp [bnot_isNone]

/-- C2 witness: a check-mode present run on `envW` where `/dev/sdc1` is
missing reports `changed=true` and invokes nothing mutating. -/
theorem C2_witness :
    (∀ c ∈ (main envW ⟨["/dev/sda1", "/dev/sdc1"], "", "present", false, true⟩).1,
      c.isMutating = false) ∧
    (main envW ⟨["/dev/sda1", "/dev/sdc1"], "", "present", false, true⟩).2 =
      Outcome.exitJson true := by
  have h := C2_check_mode envW ⟨["/dev/sda1", "/dev/sdc1"], "", "present", false, true⟩ rfl
  refine ⟨h.1, ?_⟩
  have h2 := (h.2 invW [] rfl rfl rfl).1 rfl (by decide)
  rw [h2]
  rfl

/-- C9: the command trace of any run is either empty or starts with the
single `pvs` listing invocation, which is never repeated afterwards — so
the inventory snapshot is taken exactly once, strictly before any mutating
command, and every reconciliation decision uses that same snapshot; and if
the listing command exits non-zero the run fails with its exit code and
error stream after running nothing but the listing. -/
theorem C9_inventory_snapshot (env : Env) (p : Params) :
    ((main env p).1 = [] ∨
      ∃ t, (main env p).1 = Cmd.pvsList :: t ∧ Cmd.pvsList ∉ t) ∧
    (p.pvs.isEmpty = false →
      (p.state = "present" → ∀ d ∈ p.pvs.map env.realpath, env.path_exists d = true) →
      env.pvs_run.rc ≠ 0 →
      main env p =
        ([Cmd.pvsList], Outcome.failCmd "Failed executing pvs command."
          env.pvs_run.rc env.pvs_run.err)) := by
  constructor
  · rcases main_trace_structure env p with h | ⟨pt, lt, htr, hpt, hlt, _⟩
    · exact Or.inl h
    · refine Or.inr ⟨pt ++ lt, htr, ?_⟩
      intro hmem
      rcases List.mem_append.mp hmem with hc | hc
      · obtain ⟨d, hd⟩ := hpt _ hc
        simp at hd
      · have hm := hlt _ hc
        simp [Cmd.isMutating] at hm
  · exact main_pvs_fail env p

/-- C9 witness: on `envFail` the listing fails with exit code 3 and the run
aborts having invoked only the listing. -/
theorem C9_witness :
    main envFail ⟨["/dev/sda1"], "", "absent", false, false⟩ =
      ([Cmd.pvsList], Outcome.failCmd "Failed executing pvs command." 3 "pvs boom") :=
  (C9_inventory_snapshot envFail ⟨["/dev/sda1"], "", "absent", false, false⟩).2
    rfl (fun hpres => absurd hpres (by decide)) (by decide)

/-- C8: if the creation command (state `present`) or the removal command
(graceful or forced, state `absent`) exits non-zero for some device, the
loop terminates at once with a fatal error carrying the failing device's
name, the exit code and the error stream; the commands already run for the
earlier devices stay in the trace (no rollback) and no device after the
failing one contributes anything. -/
theorem C8_mutation_failure_aborts (env : Env) (opts : List String) (inv : Inventory)
    (l1 l2 : List String) (dev : String) (ch : Bool) :
    ((∀ x ∈ l1, ∃ c, (presentStep env false opts inv x).2 = Except.ok c) →
      invFind inv dev = none → (env.pvcreate_run dev).rc ≠ 0 →
      runLoop (presentStep env false opts inv) (l1 ++ dev :: l2) ch =
        (stepTraces (presentStep env false opts inv) l1 ++ [Cmd.pvcreate opts dev],
          Outcome.failCmd ("Creating physical volume " ++ dev ++ " failed")
            (env.pvcreate_run dev).rc (env.pvcreate_run dev).err)) ∧
    (∀ r : VolumeRecord,
      (∀ x ∈ l1, ∃ c, (absentStep env false false inv x).2 = Except.ok c) →
      invFind inv dev = some r → r.pv_size = r.pv_free → r.vg_name = "" →
      (env.pvremove_run dev).rc ≠ 0 →
      runLoop (absentStep env false false inv) (l1 ++ dev :: l2) ch =
        (stepTraces (absentStep env false false inv) l1 ++ [Cmd.pvremove dev],
          Outcome.failCmd ("Failed to remove physical volume " ++ dev)
            (env.pvremove_run dev).rc (env.pvremove_run dev).err)) ∧
    (∀ r : VolumeRecord,
      (∀ x ∈ l1, ∃ c, (absentStep env false true inv x).2 = Except.ok c) →
      invFind inv dev = some r → (env.pvremove_forced_run dev).rc ≠ 0 →
      runLoop (absentStep env false true inv) (l1 ++ dev :: l2) ch =
        (stepTraces (absentStep env false true inv) l1 ++ [Cmd.pvremoveForced dev],
          Outcome.failCmd ("Failed to remove physical volume " ++ dev)
            (env.pvremove_forced_run dev).rc (env.pvremove_forced_run dev).err)) := by
  refine ⟨fun h1 hm hrc => ?_, fun r h1 hm hsz hvg hrc => ?_, fun r h1 hm hrc => ?_⟩
  · have hstep := presentStep_missing_fail env opts inv dev hm hrc
    have h2 : (presentStep env false opts inv dev).2 =
        Except.error (Outcome.failCmd ("Creating physical volume " ++ dev ++ " failed")
          (env.pvcreate_run dev).rc (env.pvcreate_run dev).err) := by
      rw [hstep]
    rw [runLoop_error_at h1 h2 l2 ch, hstep]
  · have hstep := absentStep_graceful_fail env inv dev hm ⟨hsz, hvg⟩ hrc
    have h2 : (absentStep env false false inv dev).2 =
        Except.error (Outcome.failCmd ("Failed to remove physical volume " ++ dev)
          (env.pvremove_run dev).rc (env.pvremove_run dev).err) := by
      rw [hstep]
    rw [runLoop_error_at h1 h2 l2 ch, hstep]
  · have hstep : absentStep env false true inv dev =
        ([Cmd.pvremoveForced dev],
          Except.error (Outcome.failCmd ("Failed to remove physical volume " ++ dev)
            (env.pvremove_forced_run dev).rc (env.pvremove_forced_run dev).err)) := by
      rw [absentStep_forced env inv dev hm, if_neg hrc]
    have h2 : (absentStep env false true inv dev).2 =
        Except.error (Outcome.failCmd ("Failed to remove physical volume " ++ dev)
          (env.pvremove_forced_run dev).rc (env.pvremove_forced_run dev).err) := by
      rw [hstep]
    rw [runLoop_error_at h1 h2 l2 ch, hstep]

/-- C8 witness: on `envMut` creating `/dev/sdc1` fails with exit code 5 and
the run aborts at that command. -/
theorem C8_witness :
    runLoop (presentStep envMut false [] invW) ([] ++ "/dev/sdc1" :: []) false =
      (stepTraces (presentStep envMut false [] invW) [] ++ [Cmd.pvcreate [] "/dev/sdc1"],
        Outcome.failCmd ("Creating physical volume " ++ "/dev/sdc1" ++ " failed")
          (envMut.pvcreate_run "/dev/sdc1").rc (envMut.pvcreate_run "/dev/sdc1").err) :=
  (C8_mutation_failure_aborts envMut [] invW [] [] "/dev/sdc1" false).1
    (fun x hx => absurd hx (by simp)) rfl (by decide)

/-- C6: requesting `state=present` is idempotent: a device already in the
inventory contributes no command and `changed=false`; a missing device gets
exactly one `pvcreate` invocation (count 1 in the whole trace when the
request list has no duplicates) and contributes `changed=true`; and two
consecutive present runs, the second on an inventory containing every
requested device, report `changed=true` then `changed=false`. -/
theorem C6_present_idempotent :
    (∀ (env : Env) (opts : List String) (inv : Inventory) (dev : String) (r : VolumeRecord),
      invFind inv dev = some r →
      presentStep env false opts inv dev = ([], Except.ok false)) ∧
    (∀ (env : Env) (opts : List String) (inv : Inventory) (dev : String),
      invFind inv dev = none → (env.pvcreate_run dev).rc = 0 →
      presentStep env false opts inv dev = ([Cmd.pvcreate opts dev], Except.ok true)) ∧
    (∀ (env : Env) (opts : List String) (inv : Inventory) (l : List String) (dev : String),
      l.Nodup → (∀ x, (env.pvcreate_run x).rc = 0) → dev ∈ l → invFind inv dev = none →
      (runLoop (presentStep env false opts inv) l false).1.count (Cmd.pvcreate opts dev) = 1) ∧
    (∀ (env1 env2 : Env) (p : Params) (inv1 inv2 : Inventory) (pt1 pt2 : List Cmd),
      p.state = "present" → p.check_mode = false → p.pvs.isEmpty = false →
      (∀ d ∈ p.pvs.map env1.realpath, env1.path_exists d = true) →
      env1.pvs_run.rc = 0 → parse_pvs env1 env1.pvs_run.out = (pt1, Except.ok inv1) →
      (∀ d, (env1.pvcreate_run d).rc = 0) →
      (∃ d ∈ p.pvs.map env1.realpath, invFind inv1 d = none) →
      (∀ d ∈ p.pvs.map env2.realpath, env2.path_exists d = true) →
      env2.pvs_run.rc = 0 → parse_pvs env2 env2.pvs_run.out = (pt2, Except.ok inv2) →
      (∀ d ∈ p.pvs.map env2.realpath, (invFind inv2 d).isSome) →
      (main env1 p).2 = Outcome.exitJson true ∧ (main env2 p).2 = Outcome.exitJson false) := by
  refine ⟨fun env opts inv dev r h => presentStep_in env opts inv dev h,
    fun env opts inv dev h hrc => presentStep_missing_ok env opts inv dev h hrc,
    fun env opts inv l dev hnd hrc hdev hmiss => ?_,
    fun env1 env2 p inv1 inv2 pt1 pt2 hst hck h1 hex1 hrc1 hp1 hcr hmiss hex2 hrc2 hp2 hall => ?_⟩
  · have hok : ∀ d ∈ l, ∃ c, (presentStep env false opts inv d).2 = Except.ok c := by
      intro d hd
      rcases hfd : invFind inv d with _ | r
      · exact ⟨true, by rw [presentStep_missing_ok env opts inv d hfd (hrc d)]⟩
      · exact ⟨false, by rw [presentStep_in env opts inv d hfd]⟩
    rw [runLoop_ok_trace hok false]
    exact stepTraces_count_pvcreate_one env opts inv hnd hrc hdev hmiss
  · constructor
    · rw [main_present_eq env1 p h1 hst hex1 hrc1 hp1]
      dsimp only
      rw [hck]
      have hok : ∀ d ∈ p.pvs.map env1.realpath,
          (presentStep env1 false (pySplitWhitespace p.pv_options) inv1 d).2 =
            Except.ok ((invFind inv1 d).isNone) := by
        intro d hd
        rcases hfd : invFind inv1 d with _ | r
        · rw [presentStep_missing_ok env1 _ inv1 d hfd (hcr d)]
          rfl
        · rw [presentStep_in env1 _ inv1 d hfd]
          rfl
      rw [runLoop_ok_outcome hok false]
      obtain ⟨d, hd, hdn⟩ := hmiss
      have hany : (p.pvs.map env1.realpath).any (fun d => (invFind inv1 d).isNone) = true := by
        rw [List.any_eq_true]
        exact ⟨d, hd, by simp [hdn]⟩
      simp [hany]
    · rw [main_present_eq env2 p h1 hst hex2 hrc2 hp2]
      dsimp only
      rw [hck]
      have hok : ∀ d ∈ p.pvs.map env2.realpath,
          (presentStep env2 false (pySplitWhitespace p.pv_options) inv2 d).2 =
            Except.ok ((invFind inv2 d).isNone) := by
        intro d hd
        rcases hfd : invFind inv2 d with _ | r
        · have := hall d hd
          rw [hfd] at this
          simp at this
        · rw [presentStep_in env2 _ inv2 d hfd]
          rfl
      rw [runLoop_ok_outcome hok false]
      have hany : (p.pvs.map env2.realpath).any (fun d => (invFind inv2 d).isNone) = false := by
        rw [List.any_eq_false]
        intro d hd
        have := hall d hd
        simp only [Option.isSome_iff_ne_none] at this
        simp [Option.isNone_iff_eq_none, this]
      simp [hany]

/-- C6 witness: creating `/dev/sdc1` on `envW` reports `changed=true`; the
repeat run on `env2W`, whose inventory now contains it, reports
`changed=false`. -/
theorem C6_witness :
    (main envW ⟨["/dev/sdc1"], "", "present", false, false⟩).2 = Outcome.exitJson true ∧
    (main env2W ⟨["/dev/sdc1"], "", "present", false, false⟩).2 = Outcome.exitJson false :=
  (C6_present_idempotent).2.2.2 envW env2W ⟨["/dev/sdc1"], "", "present", false, false⟩
    invW inv2W [] [] rfl rfl rfl (by decide) rfl rfl (fun d => rfl)
    ⟨"/dev/sdc1", by decide, by decide⟩ (by decide) rfl rfl (by decide)

/-- C4: the run depends on the requested device paths only through their
`realpath` resolution (so a symlink and its target are interchangeable and
hit the same inventory entry), and when the listing parses successfully
every inventory key produced from a line whose first field has the
`/dev/dm-` prefix is the `/dev/mapper/<name>` alias returned by the
resolver, the other keys being the first field itself — these keys are what
each requested device is compared against. -/
theorem C4_path_normalization :
    (∀ (env : Env) (p q : Params),
      p.pv_options = q.pv_options → p.state = q.state → p.force = q.force →
      p.check_mode = q.check_mode → p.pvs.map env.realpath = q.pvs.map env.realpath →
      main env p = main env q) ∧
    (∀ (env : Env) (data : String) (pt : List Cmd) (inv : Inventory),
      parse_pvs env data = (pt, Except.ok inv) →
      List.Forall₂ (fun line kv =>
        ∃ p0 rest, lineFields line = p0 :: rest ∧
          (if "/dev/dm-".data.isPrefixOf p0.data
           then (find_mapper_device_name env p0).2 = Except.ok kv.1
           else kv.1 = p0)) (pySplitlines data) inv) := by
  constructor
  · rintro env ⟨pv1, po1, st1, fo1, ck1⟩ ⟨pv2, po2, st2, fo2, ck2⟩ hpo hst hfo hck hmap
    simp only at hpo hst hfo hck hmap
    subst hpo
    subst hst
    subst hfo
    subst hck
    have he : pv1.isEmpty = pv2.isEmpty := by
      cases pv1 <;> cases pv2 <;> simp_all
    unfold main
    dsimp only
    rw [he, hmap]
  · intro env data pt inv h
    have h2 : (parse_pvs env data).2 = Except.ok inv := by rw [h]
    exact List.Forall₂.imp (fun line kv hok => parseLine_ok_key hok)
      (parsePvsLines_ok_forall2 h2)

/-- C4 witness: on `envSym`, requesting the symlink `/dev/link1` behaves
exactly like requesting its target `/dev/sda1`; and the `/dev/dm-0` line of
`envDm` yields the key `/dev/mapper/mpa`. -/
theorem C4_witness :
    main envSym ⟨["/dev/link1"], "", "absent", false, false⟩ =
      main envSym ⟨["/dev/sda1"], "", "absent", false, false⟩ ∧
    List.Forall₂ (fun line kv =>
      ∃ p0 rest, lineFields line = p0 :: rest ∧
        (if "/dev/dm-".data.isPrefixOf p0.data
         then (find_mapper_device_name envDm p0).2 = Except.ok kv.1
         else kv.1 = p0)) (pySplitlines envDm.pvs_run.out) invDm :=
  ⟨(C4_path_normalization).1 envSym ⟨["/dev/link1"], "", "absent", false, false⟩
      ⟨["/dev/sda1"], "", "absent", false, false⟩ rfl rfl rfl rfl (by decide),
    (C4_path_normalization).2 envDm envDm.pvs_run.out [Cmd.dmsetup "/dev/dm-0"] invDm rfl⟩

/-- C10: the inventory parser produces an inventory only if every line of
the listing output splits into at least four semicolon-separated fields:
any input containing a shorter line (a blank line, for instance) never
parses to an inventory, and on such a line whose first field is not a
device-mapper node the failure is precisely the out-of-bounds
`IndexError`; conversely, with all lines long enough (and `dmsetup`
succeeding) the parse always produces an inventory. -/
theorem C10_parser_field_bound :
    (∀ (env : Env) (data : String),
      (∃ line ∈ pySplitlines data, (lineFields line).length < 4) →
      ∀ (pt : List Cmd) (inv : Inventory), parse_pvs env data ≠ (pt, Except.ok inv)) ∧
    (∀ (env : Env) (line : String) (p0 : String) (rest : List String),
      lineFields line = p0 :: rest →
      ("/dev/dm-".data.isPrefixOf p0.data) = false →
      (lineFields line).length < 4 →
      (parseLine env line).2 = Except.error (Outcome.pyError indexErrorMsg)) ∧
    (∀ (env : Env) (data : String),
      (∀ line ∈ pySplitlines data, 4 ≤ (lineFields line).length) →
      (∀ d, (env.dmsetup_run d).rc = 0) →
      ∃ inv, (parse_pvs env data).2 = Except.ok inv) := by
  refine ⟨?_, ?_, ?_⟩
  · rintro env data ⟨line, hline, hlen⟩ pt inv heq
    have h2 : (parse_pvs env data).2 = Except.ok inv := by rw [heq]
    obtain ⟨kv, _, hok⟩ := forall2_mem_left (parsePvsLines_ok_forall2 h2) hline
    exact parseLine_ok_short hlen hok
  · intro env line p0 rest hf hdm hlen
    rw [hf] at hlen
    simp only [List.length_cons] at hlen
    unfold parseLine
    rw [hf]
    dsimp only
    rw [hdm]
    simp only [Bool.false_eq_true, if_false]
    rcases rest with _ | ⟨a, _ | ⟨b, _ | ⟨c, t⟩⟩⟩
    · rfl
    · rfl
    · rfl
    · simp only [List.length_cons] at hlen
      exact absurd hlen (by omega)
  · intro env data hlen hdm
    exact parsePvsLines_ok_of_long hlen hdm

/-- C10 witness: the two-field line `/dev/sda1;vg0` never parses to an
inventory, and its failure is the `IndexError` crash. -/
theorem C10_witness :
    parse_pvs envW "/dev/sda1;vg0" ≠ ([], Except.ok []) ∧
    (parseLine envW "/dev/sda1;vg0").2 = Except.error (Outcome.pyError indexErrorMsg) :=
  ⟨(C10_parser_field_bound).1 envW "/dev/sda1;vg0"
      ⟨"/dev/sda1;vg0", by decide, by decide⟩ [] [],
    (C10_parser_field_bound).2.1 envW "/dev/sda1;vg0" "/dev/sda1" ["vg0"]
      (by decide) (by decide) (by decide)⟩

end LvmPvs
